import Mathlib

/-
Verification of the inter-news-en page script.

The repository holds three variants of the same client-side script:
  * `src/docs/app.js`      (the deployed file; definitions suffixed with nothing or `_app`)
  * `src/unnamed/part_000` (an earlier variant; suffix `_p0`)
  * `src/unnamed/part_001` (another variant; suffix `_p1`)

Each variant fetches `data/articles.json` and renders a filterable card
list.  We embed the three variants' `loadData`, `formatDate` and `render`
functions, model the JavaScript runtime primitives they rely on
(string truthiness, `||`, template interpolation of `undefined`, `trim`,
`toLowerCase`, `includes`, `new Date`), and settle the claims C1..C10.
All definitions are executable and all proofs are kernel-checked.
-/

/-! ## Model of the JavaScript string runtime -/

/-- Whitespace recognised by the model of `String.prototype.trim`
(the feed and queries only ever contain these). -/
def isJsWhitespace (c : Char) : Bool :=
  c == ' ' || c == '\t' || c == '\n' || c == '\r'

/-- Model of `s.trim()`: drop whitespace from both ends. -/
def jsTrim (s : String) : String :=
  ⟨((s.data.dropWhile isJsWhitespace).reverse.dropWhile isJsWhitespace).reverse⟩

/-- Model of `s.toLowerCase()` (ASCII case mapping; the script's data is
Latin-script so the simple mapping is faithful). -/
def jsToLower (s : String) : String :=
  ⟨s.data.map Char.toLower⟩

/-- Executable check that `needle` starts the list `hay`
(model of `String.prototype.startsWith` at character level). -/
def charsStartsWith : List Char → List Char → Bool
  | [], _ => true
  | _ :: _, [] => false
  | a :: as, b :: bs => a == b && charsStartsWith as bs

/-- Executable check that `needle` occurs contiguously inside `hay`. -/
def charsContains (needle : List Char) : List Char → Bool
  | [] => needle.isEmpty
  | b :: bs => charsStartsWith needle (b :: bs) || charsContains needle bs

/-- Model of `s.includes(sub)`. -/
def jsIncludes (s sub : String) : Bool :=
  charsContains sub.data s.data

/-- JavaScript truthiness of an optional string (`undefined` and `""` are
falsy, every other string is truthy). -/
def jsTruthy : Option String → Bool
  | none => false
  | some s => !(s == "")

/-- JavaScript truthiness of an optional boolean (`undefined` is falsy). -/
def jsTruthyB : Option Bool → Bool
  | none => false
  | some b => b

/-- Template-literal interpolation of an optional string:
`${undefined}` renders as the literal text `"undefined"`. -/
def jsStr : Option String → String
  | none => "undefined"
  | some s => s

/-- Model of `x || y` on optional strings: the first operand if truthy,
otherwise the second. -/
def jsOr (x y : Option String) : Option String :=
  if jsTruthy x then x else y

/-! ## Data model: feed document and articles -/

/-- An article record of the feed document.  Every field is optional in
the JSON, so every field is an `Option`. -/
structure Article where
  title_en : Option String := none
  title_it : Option String := none
  summary_en : Option String := none
  url : Option String := none
  local_url : Option String := none
  published : Option String := none
  pending : Option Bool := none
deriving DecidableEq

/-- The feed document fetched from `data/articles.json`. -/
structure Feed where
  generated_utc : Option String := none
  articles : List Article := []
deriving DecidableEq

/-! ## Model of `new Date` and the two `formatDate` variants -/

/-- Numeric value of a decimal digit character. -/
def digitVal (c : Char) : Nat := c.toNat - 48

/-- Model of `new Date(v)` validity and time value for the inputs this
script can receive: `undefined` and non-date strings yield an invalid
date (`none`); an ISO-8601-style string `YYYY-MM-DD...` yields a valid
date.  The numeric encoding is an abstract stand-in for the epoch time;
no claim depends on its value, only on validity. -/
def jsDateParse : Option String → Option Nat
  | none => none
  | some s =>
    match s.data with
    | y1 :: y2 :: y3 :: y4 :: '-' :: m1 :: m2 :: '-' :: d1 :: d2 :: _ =>
      if y1.isDigit && y2.isDigit && y3.isDigit && y4.isDigit &&
         m1.isDigit && m2.isDigit && d1.isDigit && d2.isDigit then
        some ((((digitVal y1 * 10 + digitVal y2) * 10 + digitVal y3) * 10 + digitVal y4) * 10000
              + (digitVal m1 * 10 + digitVal m2) * 100 + (digitVal d1 * 10 + digitVal d2))
      else none
    | _ => none

/-- Abstract model of `dt.toLocaleString(undefined, ...)` on a VALID date:
some locale-dependent rendering of the time value.  No claim depends on
its exact form. -/
def jsLocaleMediumShort (t : Nat) : String :=
  "locale-date-" ++ toString t

/-- The body of the `try` block in `formatDate`.  Per ECMA-262,
`new Date(v)` never throws on string or `undefined` input, and
`Date.prototype.toLocaleString` returns the fixed string
`"Invalid Date"` for an invalid time value instead of throwing; so the
body always succeeds.  It is kept as an `Except` to preserve the
source's `try`/`catch` shape. -/
def formatDateBody (d : Option String) : Except String String :=
  Except.ok (match jsDateParse d with
    | none => "Invalid Date"
    | some t => jsLocaleMediumShort t)

/-- `formatDate` of `src/docs/app.js` (identical in `src/unnamed/part_000`):
the `catch` branch returns the raw input (`return d`), rendered here
through template interpolation since the value flows into markup. -/
def formatDate (d : Option String) : String :=
  match formatDateBody d with
  | Except.ok s => s
  | Except.error _ => jsStr d

/-- `formatDate` of `src/unnamed/part_001`: the `catch` branch is
`return d || ''`. -/
def formatDate_p1 (d : Option String) : String :=
  match formatDateBody d with
  | Except.ok s => s
  | Except.error _ => jsStr (jsOr d (some ""))

/-! ## Cards -/

/-- The structured content of one rendered article card: the pieces of
the interpolated markup that the claims talk about. -/
structure ArticleCard where
  href : String
  newTab : Bool
  linkText : String
  badge : Option String
  dateText : String
  summaryText : Option String
deriving DecidableEq

/-- One child of the list container: an article card or the fixed
placeholder card produced when nothing matched. -/
inductive Card where
  | article : ArticleCard → Card
  | placeholder : String → Card
deriving DecidableEq

/-- Card built by `render` in `src/docs/app.js`:
`href = a.local_url ? a.local_url : a.url`, the link always carries
`target="_blank"`, and the badge is
`a.local_url ? 'translated page' : 'translation pending'`. -/
def cardApp (a : Article) : ArticleCard :=
  { href := jsStr (if jsTruthy a.local_url then a.local_url else a.url)
    newTab := true
    linkText := jsStr (jsOr a.title_en a.title_it)
    badge := some (if jsTruthy a.local_url then "translated page" else "translation pending")
    dateText := formatDate a.published
    summaryText := if jsTruthy a.summary_en then some (jsStr a.summary_en) else none }

/-- Card built by `render` in `src/unnamed/part_000`: the link always
targets `a.url` with `target="_blank"`, and there is no badge. -/
def card_p0 (a : Article) : ArticleCard :=
  { href := jsStr a.url
    newTab := true
    linkText := jsStr (jsOr a.title_en a.title_it)
    badge := none
    dateText := formatDate a.published
    summaryText := if jsTruthy a.summary_en then some (jsStr a.summary_en) else none }

/-- Card built by `render` in `src/unnamed/part_001`:
`isLocal = !!a.local_url`; local cards open in the same tab; the chip is
`a.pending ? 'translation pending' : (isLocal ? 'translated page' : '')`
(an empty chip string produces no badge). -/
def card_p1 (a : Article) : ArticleCard :=
  { href := jsStr (if jsTruthy a.local_url then a.local_url else a.url)
    newTab := !(jsTruthy a.local_url)
    linkText := jsStr (jsOr a.title_en a.title_it)
    badge := if jsTruthyB a.pending then some "translation pending"
             else if jsTruthy a.local_url then some "translated page" else none
    dateText := formatDate_p1 a.published
    summaryText := if jsTruthy (jsOr a.summary_en (some "")) then
                     some (jsStr (jsOr a.summary_en (some ""))) else none }

/-! ## The filter and the render loop (identical in all three variants) -/

/-- `field?.toLowerCase().includes(q)` under `!( ... )`: a missing field
is `undefined`, which is falsy, so it never matches. -/
def optLowerIncludes : Option String → String → Bool
  | none, _ => false
  | some s, q => jsIncludes (jsToLower s) q

/-- The match test of the shared filter line:
`a.title_en?.toLowerCase().includes(q) || a.summary_en?.toLowerCase().includes(q)`. -/
def matchesQuery (q : String) (a : Article) : Bool :=
  optLowerIncludes a.title_en q || optLowerIncludes a.summary_en q

/-- `const q = (filter || '').trim().toLowerCase()`. -/
def normQuery (filter : String) : String :=
  jsToLower (jsTrim filter)

/-- An article survives the loop's `continue` test:
`if (q && !(...)) continue` keeps `a` iff `q` is empty or `a` matches. -/
def keptB (q : String) (a : Article) : Bool :=
  (q == "") || matchesQuery q a

/-- The `for (const a of articles)` loop, emitting one card per article
that survives the `continue` test, in input order.  `mk` is the card
construction of the particular variant. -/
def renderLoop (mk : Article → ArticleCard) (q : String) : List Article → List Card
  | [] => []
  | a :: rest =>
    if q != "" && !(matchesQuery q a) then renderLoop mk q rest
    else Card.article (mk a) :: renderLoop mk q rest

/-- The fixed text of the placeholder card. -/
def emptyCardText : String := "No articles match your search."

/-- Shared tail of `render`: run the loop, and if the list container has
no children afterwards, append the single placeholder card. -/
def renderList (mk : Article → ArticleCard) (articles : List Article) (filter : String) : List Card :=
  let cards := renderLoop mk (normQuery filter) articles
  if cards.isEmpty then [Card.placeholder emptyCardText] else cards

/-- `render` of `src/docs/app.js`. -/
def render (articles : List Article) (filter : String) : List Card :=
  renderList cardApp articles filter

/-- `render` of `src/unnamed/part_000`. -/
def render_p0 (articles : List Article) (filter : String) : List Card :=
  renderList card_p0 articles filter

/-- `render` of `src/unnamed/part_001`. -/
def render_p1 (articles : List Article) (filter : String) : List Card :=
  renderList card_p1 articles filter

/-- The subsequence of the input articles that the loop renders. -/
def keptArticles (articles : List Article) (filter : String) : List Article :=
  articles.filter (keptB (normQuery filter))

/-! ## Loading the feed -/

/-- Equality of `Except` values is decidable when it is on both sides. -/
instance {ε α : Type} [DecidableEq ε] [DecidableEq α] : DecidableEq (Except ε α)
  | Except.ok a, Except.ok b => decidable_of_iff (a = b) (by simp)
  | Except.ok _, Except.error _ => Decidable.isFalse (by simp)
  | Except.error _, Except.ok _ => Decidable.isFalse (by simp)
  | Except.error e, Except.error f => decidable_of_iff (e = f) (by simp)

/-- Outcome of `fetch('data/articles.json')` followed by `res.json()`:
either the fetch promise rejects, or a response arrives with an `ok`
flag, a status code, and a body whose JSON parse succeeds or rejects. -/
inductive FetchOutcome where
  | rejected : String → FetchOutcome
  | response : Bool → Nat → Except String Feed → FetchOutcome
deriving DecidableEq

/-- The fallback document of `src/unnamed/part_001`. -/
def fallbackFeed : Feed := { generated_utc := some "", articles := [] }

/-- `loadData` of `src/docs/app.js`: no `try`/`catch` and no `res.ok`
check, so a rejected fetch or a failing `res.json()` propagates, and any
JSON body is returned regardless of the HTTP status. -/
def loadData : FetchOutcome → Except String Feed
  | FetchOutcome.rejected e => Except.error e
  | FetchOutcome.response _ _ body => body

/-- `loadData` of `src/unnamed/part_000` (textually identical to the one
in `src/docs/app.js`). -/
def loadData_p0 : FetchOutcome → Except String Feed
  | FetchOutcome.rejected e => Except.error e
  | FetchOutcome.response _ _ body => body

/-- `loadData` of `src/unnamed/part_001`: `try { ...; if (!res.ok) throw
...; return await res.json() } catch { return { generated_utc: '',
articles: [] } }`. -/
def loadData_p1 : FetchOutcome → Feed
  | FetchOutcome.rejected _ => fallbackFeed
  | FetchOutcome.response ok _ body =>
    if !ok then fallbackFeed
    else match body with
      | Except.ok f => f
      | Except.error _ => fallbackFeed

/-- What the page ends up showing after the startup code ran. -/
inductive PageResult where
  | rendered : Feed → PageResult
  | errorCard : PageResult
  | uncaughtError : String → PageResult
deriving DecidableEq

/-- Startup flow of `src/docs/app.js`: `loadData` and the initial render
run inside `try`; on any failure the catch replaces the list with the
fixed card "Failed to load articles. Please refresh.".  Rendering itself
is total, so only `loadData` can reach the catch. -/
def main_app : FetchOutcome → PageResult
  | o =>
    match loadData o with
    | Except.ok f => PageResult.rendered f
    | Except.error _ => PageResult.errorCard

/-- Startup flow of `src/unnamed/part_000`: `await loadData()` with no
`try`/`catch` anywhere, so a failure is an uncaught rejection and
nothing is rendered. -/
def main_p0 : FetchOutcome → PageResult
  | o =>
    match loadData_p0 o with
    | Except.ok f => PageResult.rendered f
    | Except.error e => PageResult.uncaughtError e

/-- Startup flow of `src/unnamed/part_001`: `loadData` never rejects
(every failure is collapsed inside it), so the page always renders the
document it returns. -/
def main_p1 (o : FetchOutcome) : PageResult :=
  PageResult.rendered (loadData_p1 o)

/-! ## The page state touched by render -/

/-- The mutable page state `render` can see: the stored article list
(the `data.articles` closure variable), the current search text and the
children of the list container.  `render` only ever writes
`list.innerHTML` / `appendChild`. -/
structure PageState where
  articles : List Article
  searchText : String
  listChildren : List Card

/-- Effect of calling `render(st.articles, filter)` in `src/docs/app.js`
on the page state. -/
def renderDom (st : PageState) (filter : String) : PageState :=
  { st with listChildren := render st.articles filter }

/-- Effect of `render` in `src/unnamed/part_000` on the page state. -/
def renderDom_p0 (st : PageState) (filter : String) : PageState :=
  { st with listChildren := render_p0 st.articles filter }

/-- Effect of `render` in `src/unnamed/part_001` on the page state. -/
def renderDom_p1 (st : PageState) (filter : String) : PageState :=
  { st with listChildren := render_p1 st.articles filter }

/-! ## The spec-side matching predicate (for the refinement claim C1) -/

/-- Written from the words of the claim, to be compared with the code:
"Q is empty after trimming, or the trimmed lower-cased Q is a substring
of the lower-cased title_en of A or of the lower-cased summary_en of A";
a missing field never matches. -/
def specMatches (filter : String) (a : Article) : Prop :=
  jsTrim filter = "" ∨
  (∃ s, a.title_en = some s ∧ (jsToLower (jsTrim filter)).data <:+: (jsToLower s).data) ∨
  (∃ s, a.summary_en = some s ∧ (jsToLower (jsTrim filter)).data <:+: (jsToLower s).data)

/-! ## Helper lemmas -/

/-- `charsStartsWith` decides the list-prefix relation. -/
theorem charsStartsWith_iff (l₁ l₂ : List Char) :
    charsStartsWith l₁ l₂ = true ↔ l₁ <+: l₂ := by
  induction l₁ generalizing l₂ with
  | nil => simp [charsStartsWith, List.nil_prefix]
  | cons a as ih =>
    cases l₂ with
    | nil => simp [charsStartsWith, List.prefix_nil]
    | cons b bs =>
      simp [charsStartsWith, List.cons_prefix_cons, ih, Bool.and_eq_true, beq_iff_eq]

/-- `charsContains` decides the list-infix relation. -/
theorem charsContains_iff (needle hay : List Char) :
    charsContains needle hay = true ↔ needle <:+: hay := by
  induction hay with
  | nil => simp [charsContains, List.infix_nil, List.isEmpty_iff]
  | cons b bs ih =>
    simp [charsContains, List.infix_cons_iff, charsStartsWith_iff, ih, Bool.or_eq_true]

/-- Lower-casing preserves emptiness of a string. -/
theorem jsToLower_eq_empty_iff (s : String) : jsToLower s = "" ↔ s = "" := by
  rw [String.ext_iff, String.ext_iff]
  simp [jsToLower]

/-- The optional-chained `includes` test agrees with the spec-side
"substring of the lower-cased field, missing field never matches". -/
theorem optLowerIncludes_iff (f : Option String) (q : String) :
    optLowerIncludes f q = true ↔ ∃ s, f = some s ∧ q.data <:+: (jsToLower s).data := by
  cases f with
  | none => simp [optLowerIncludes]
  | some s => simp [optLowerIncludes, jsIncludes, charsContains_iff]

/-- The loop's keep condition agrees with the spec-side predicate. -/
theorem keptB_iff_specMatches (filter : String) (a : Article) :
    keptB (normQuery filter) a = true ↔ specMatches filter a := by
  have hq : ((jsToLower (jsTrim filter) == "") = true) ↔ jsTrim filter = "" := by
    simp [beq_iff_eq, jsToLower_eq_empty_iff]
  simp only [keptB, matchesQuery, Bool.or_eq_true, optLowerIncludes_iff, normQuery,
    specMatches]
  exact or_congr hq (or_congr Iff.rfl Iff.rfl)

/-- The render loop emits exactly one card per kept article, in input
order. -/
theorem renderLoop_eq (mk : Article → ArticleCard) (q : String) (as : List Article) :
    renderLoop mk q as = (as.filter (keptB q)).map (fun a => Card.article (mk a)) := by
  induction as with
  | nil => rfl
  | cons a rest ih =>
    cases hq : (q == "") <;> cases hm : matchesQuery q a <;>
      simp [renderLoop, List.filter_cons, keptB, hq, hm, ih, bne]

/-! ## Claims -/

/-- C1: an article appears in the output of render (it survives the
shared filter line, which is what `keptArticles` captures; the loop
emits exactly the cards of `keptArticles` in order, see `renderLoop_eq`)
iff the query is empty after trimming or the trimmed lower-cased query
is a substring of the lower-cased `title_en` or of the lower-cased
`summary_en`; an article with both fields absent is never included by a
non-empty query, and render is a total function on such articles (the
optional chaining makes the missing field falsy instead of crashing). -/
theorem c1_filter_correctness (articles : List Article) (filter : String) (a : Article) :
    (a ∈ keptArticles articles filter ↔ a ∈ articles ∧ specMatches filter a) ∧
    (jsTrim filter ≠ "" → a.title_en = none → a.summary_en = none →
      a ∉ keptArticles articles filter) := by
  constructor
  · rw [keptArticles, List.mem_filter, keptB_iff_specMatches]
  · intro hq ht hs hmem
    rw [keptArticles, List.mem_filter, keptB_iff_specMatches] at hmem
    rcases hmem.2 with h | ⟨s, hs', _⟩ | ⟨s, hs', _⟩
    · exact hq h
    · rw [ht] at hs'; cases hs'
    · rw [hs] at hs'; cases hs'

/-- C1 witness: an article with neither `title_en` nor `summary_en` is
not kept by the non-empty query "x". -/
theorem c1_filter_correctness_witness :
    ({ } : Article) ∉ keptArticles [{ }] "x" :=
  (c1_filter_correctness [{ }] "x" { }).2 (by decide) rfl rfl

/-- C2 counterexample: for an article with both `local_url` and `url`
set, the card of `src/docs/app.js` does take `local_url` as its link
target, but it IS marked `target="_blank"`, and the card of
`src/unnamed/part_000` does not use `local_url` at all. -/
theorem c2_link_precedence_cex :
    (cardApp { title_en := some "T", url := some "U", local_url := some "L" }).href = "L" ∧
    ¬((cardApp { title_en := some "T", url := some "U", local_url := some "L" }).newTab = false) ∧
    ¬((card_p0 { title_en := some "T", url := some "U", local_url := some "L" }).href = "L") := by
  decide

/-- C2 amended: in `src/unnamed/part_001` the claim holds as stated
(truthy `local_url` gives the local target in the same tab, otherwise
`url` in a new tab); in `src/docs/app.js` the link target follows the
same precedence but every link is marked `target="_blank"`; in
`src/unnamed/part_000` the link target is always `url`, in a new tab. -/
theorem c2_link_precedence (a : Article) :
    (jsTruthy a.local_url = true →
      (card_p1 a).href = jsStr a.local_url ∧ (card_p1 a).newTab = false ∧
      (cardApp a).href = jsStr a.local_url ∧ (cardApp a).newTab = true ∧
      (card_p0 a).href = jsStr a.url ∧ (card_p0 a).newTab = true) ∧
    (jsTruthy a.local_url = false →
      (card_p1 a).href = jsStr a.url ∧ (card_p1 a).newTab = true ∧
      (cardApp a).href = jsStr a.url ∧ (cardApp a).newTab = true ∧
      (card_p0 a).href = jsStr a.url ∧ (card_p0 a).newTab = true) := by
  constructor <;> intro h <;> simp [cardApp, card_p0, card_p1, h]

/-- C2 witness: both cases of the amended claim at concrete articles. -/
theorem c2_link_precedence_witness :
    jsTruthy ({ url := some "U", local_url := some "L" } : Article).local_url = true ∧
    (card_p1 { url := some "U", local_url := some "L" }).newTab = false ∧
    (card_p1 { url := some "U", local_url := none }).newTab = true :=
  ⟨by decide, ((c2_link_precedence _).1 (by decide)).2.1,
    ((c2_link_precedence _).2 (by decide)).2.1⟩

/-- C3 counterexample: in `src/unnamed/part_000` a rejected fetch is not
collapsed to the fallback document and not caught anywhere: the startup
flow ends in an uncaught error and nothing is rendered. -/
theorem c3_load_failure_cex :
    main_p0 (FetchOutcome.rejected "network error")
      = PageResult.uncaughtError "network error" ∧
    ¬(loadData_p0 (FetchOutcome.rejected "network error") = Except.ok fallbackFeed) := by
  decide

/-- C3 amended: `loadData` of `src/unnamed/part_001` collapses a fetch
rejection and a non-ok response to the fallback document; `src/docs/app.js`
renders the dedicated error card on a rejection or a failing JSON body
(it never checks `res.ok`, so a non-ok response whose body parses is
rendered as data); `src/unnamed/part_000` has no handler and a rejected
fetch propagates as an uncaught error, leaving the page blank. -/
theorem c3_load_failure (e : String) (status : Nat) (body : Except String Feed) (f : Feed) :
    loadData_p1 (FetchOutcome.rejected e) = fallbackFeed ∧
    loadData_p1 (FetchOutcome.response false status body) = fallbackFeed ∧
    main_app (FetchOutcome.rejected e) = PageResult.errorCard ∧
    main_app (FetchOutcome.response false status (Except.error e)) = PageResult.errorCard ∧
    main_app (FetchOutcome.response false status (Except.ok f)) = PageResult.rendered f ∧
    main_p0 (FetchOutcome.rejected e) = PageResult.uncaughtError e :=
  ⟨rfl, rfl, rfl, rfl, rfl, rfl⟩

/-- C4: whenever the loop keeps no article (empty list or a query that
matches nothing), every variant's render returns exactly the one
placeholder card with the fixed text. -/
theorem c4_empty_state (articles : List Article) (filter : String)
    (h : keptArticles articles filter = []) :
    render articles filter = [Card.placeholder emptyCardText] ∧
    render_p0 articles filter = [Card.placeholder emptyCardText] ∧
    render_p1 articles filter = [Card.placeholder emptyCardText] := by
  have hl : ∀ mk, renderLoop mk (normQuery filter) articles = [] := by
    intro mk
    rw [renderLoop_eq]
    rw [keptArticles] at h
    rw [h]
    rfl
  refine ⟨?_, ?_, ?_⟩ <;> simp [render, render_p0, render_p1, renderList, hl]

/-- C4 witness: render of the empty list with the empty query. -/
theorem c4_empty_state_witness :
    keptArticles [] "" = [] ∧ render [] "" = [Card.placeholder emptyCardText] :=
  ⟨rfl, (c4_empty_state [] "" rfl).1⟩

/-- C5 counterexample: in `src/unnamed/part_001` an article with no
`local_url` and `pending` unset gets NO badge rather than the
"translation pending" badge, and `src/unnamed/part_000` renders no badge
at all. -/
theorem c5_badge_cex :
    ¬((card_p1 { title_en := some "T", url := some "U" }).badge
        = some "translation pending") ∧
    (card_p1 { title_en := some "T", url := some "U" }).badge = none ∧
    (card_p0 { title_en := some "T", url := some "U" }).badge = none := by
  decide

/-- C5 amended: `src/docs/app.js` satisfies the claim ("translation
pending" when `local_url` is absent, "translated page" when it is
truthy); in `src/unnamed/part_001` a card with `local_url` absent and
`pending` unset has no badge, and a truthy `local_url` gives
"translated page" only when `pending` is not set (otherwise
"translation pending"); `src/unnamed/part_000` has no badge at all. -/
theorem c5_badge (a : Article) :
    (a.local_url = none → a.pending = none →
      (cardApp a).badge = some "translation pending" ∧
      (card_p1 a).badge = none ∧ (card_p0 a).badge = none) ∧
    (jsTruthy a.local_url = true →
      (cardApp a).badge = some "translated page" ∧
      (card_p1 a).badge = (if jsTruthyB a.pending then some "translation pending"
                           else some "translated page")) := by
  constructor
  · intro h1 h2
    simp [cardApp, card_p0, card_p1, h1, h2, jsTruthy, jsTruthyB]
  · intro h
    simp [cardApp, card_p1, h]

/-- C5 witness: both cases of the amended claim at concrete articles. -/
theorem c5_badge_witness :
    (cardApp { title_en := some "T" }).badge = some "translation pending" ∧
    (cardApp { local_url := some "L" }).badge = some "translated page" :=
  ⟨((c5_badge _).1 rfl rfl).1, ((c5_badge _).2 (by decide)).1⟩

/-- C6 counterexample: `formatDate` never throws, but on the inputs
`"not-a-date"` and `undefined` it returns the fixed string
"Invalid Date" — neither the raw input nor the empty string.  (Per
ECMA-262 neither `new Date` nor `toLocaleString` throws here, so the
`catch` fallback that would return the raw input is unreachable.) -/
theorem c6_formatDate_cex :
    formatDate (some "not-a-date") = "Invalid Date" ∧
    ¬(formatDate (some "not-a-date") = "not-a-date") ∧
    ¬(formatDate (some "not-a-date") = "") ∧
    formatDate none = "Invalid Date" ∧
    ¬(formatDate none = "") ∧
    formatDate_p1 (some "not-a-date") = "Invalid Date" := by
  decide

/-- C6 amended: `formatDate` (both variants) is a total function — it
returns a string for every input without throwing — but for every input
whose date parse fails (in particular `undefined` and "not-a-date") the
result is the string "Invalid Date", not the raw input or the empty
string. -/
theorem c6_formatDate (d : Option String) (h : jsDateParse d = none) :
    formatDate d = "Invalid Date" ∧ formatDate_p1 d = "Invalid Date" := by
  simp [formatDate, formatDate_p1, formatDateBody, h]

/-- C6 witness: the amended claim at the input "not-a-date". -/
theorem c6_formatDate_witness :
    jsDateParse (some "not-a-date") = none ∧
    formatDate (some "not-a-date") = "Invalid Date" :=
  ⟨rfl, (c6_formatDate (some "not-a-date") rfl).1⟩

/-- C7: the kept articles are a sublist (same relative order, deletions
only) of the input, and each variant's loop output is exactly the list
of their cards in that order. -/
theorem c7_order_preservation (articles : List Article) (filter : String) :
    List.Sublist (keptArticles articles filter) articles ∧
    renderLoop cardApp (normQuery filter) articles
      = (keptArticles articles filter).map (fun a => Card.article (cardApp a)) ∧
    renderLoop card_p0 (normQuery filter) articles
      = (keptArticles articles filter).map (fun a => Card.article (card_p0 a)) ∧
    renderLoop card_p1 (normQuery filter) articles
      = (keptArticles articles filter).map (fun a => Card.article (card_p1 a)) :=
  ⟨List.filter_sublist _, renderLoop_eq cardApp (normQuery filter) articles,
    renderLoop_eq card_p0 (normQuery filter) articles,
    renderLoop_eq card_p1 (normQuery filter) articles⟩

/-- C8: the link text is `title_en` when it is non-empty, and `title_it`
when `title_en` is falsy (absent or empty) and `title_it` is present —
in all three variants. -/
theorem c8_fallback_title (a : Article) :
    (∀ t, a.title_en = some t → t ≠ "" →
      (cardApp a).linkText = t ∧ (card_p0 a).linkText = t ∧ (card_p1 a).linkText = t) ∧
    (jsTruthy a.title_en = false → ∀ t, a.title_it = some t → t ≠ "" →
      (cardApp a).linkText = t ∧ (card_p0 a).linkText = t ∧ (card_p1 a).linkText = t) := by
  constructor
  · intro t ht hne
    have htr : jsTruthy (some t) = true := by simp [jsTruthy, hne]
    simp [cardApp, card_p0, card_p1, jsOr, ht, htr, jsStr]
  · intro h t ht _hne
    simp [cardApp, card_p0, card_p1, jsOr, h, ht, jsStr]

/-- C8 witness: both cases at concrete articles. -/
theorem c8_fallback_title_witness :
    (cardApp { title_en := some "EU" }).linkText = "EU" ∧
    (cardApp { title_en := some "", title_it := some "Roma" }).linkText = "Roma" :=
  ⟨((c8_fallback_title _).1 "EU" rfl (by decide)).1,
    ((c8_fallback_title _).2 (by decide) "Roma" rfl (by decide)).1⟩

/-- C9: render only replaces the children of the list container; the
stored article list component of the page state is returned unchanged
by all three variants (the source never writes to `articles` or to a
field of an article — only to `list.innerHTML` / `appendChild`). -/
theorem c9_no_mutation (st : PageState) (filter : String) :
    (renderDom st filter).articles = st.articles ∧
    (renderDom_p0 st filter).articles = st.articles ∧
    (renderDom_p1 st filter).articles = st.articles :=
  ⟨rfl, rfl, rfl⟩

/-- C10: when both titles are absent, `a.title_en || a.title_it`
evaluates to `undefined` and the template literal interpolates it as
the text "undefined" — in all three variants. -/
theorem c10_undefined_title (a : Article) (h1 : a.title_en = none) (h2 : a.title_it = none) :
    (cardApp a).linkText = "undefined" ∧
    (card_p0 a).linkText = "undefined" ∧
    (card_p1 a).linkText = "undefined" := by
  simp [cardApp, card_p0, card_p1, jsOr, jsStr, jsTruthy, h1, h2]

/-- C10 witness: the missing-both-titles article. -/
theorem c10_undefined_title_witness :
    (cardApp { url := some "U" }).linkText = "undefined" :=
  (c10_undefined_title { url := some "U" } rfl rfl).1
